/-
Verification of the AICodeGenerator backend (FastAPI service) against its
natural-language specification.  The Python source under backend/ is shallowly
embedded: pure string processing becomes Lean functions on String/List Char,
fallible operations become Except, and external effects (tree-sitter parsing,
the black/autopep8 formatters, the OpenAI-backed generator, clocks and UUIDs)
become explicit parameters.  Python definitions keep their source names
(leading underscores dropped where Lean requires).
-/
import Mathlib

namespace AICodeGen

/-! ### Python string primitives

Executable models of the Python `str` operations the service uses:
`str.count` (non-overlapping substring count), substring containment,
`str.split('\n')`, `str.strip` / `str.lstrip` (Python whitespace set),
`str.lower`, and the `\b\d+\b` digit-run scan of `re.findall`. -/

/-- Python's whitespace set for `str.strip` (ASCII): space, tab, LF, CR, VT, FF. -/
def pyIsSpace (c : Char) : Bool :=
  c = ' ' || c = '\t' || c = '\n' || c = '\r' || c = '\x0b' || c = '\x0c'

/-- A regex word character (`\w`, ASCII): letter, digit or underscore. -/
def isWordChar (c : Char) : Bool :=
  c.isAlphanum || c = '_'

/-- Non-overlapping occurrence count of `pat` in `s`, scanning left to right:
the semantics of Python `str.count`.  `fuel` bounds recursion; the wrapper
passes the string length, which always suffices since every step consumes at
least one character. -/
def countOccAux (pat : List Char) : Nat → List Char → Nat
  | 0, _ => 0
  | _ + 1, [] => 0
  | fuel + 1, c :: rest =>
    if pat ≠ [] ∧ pat.isPrefixOf (c :: rest) then
      1 + countOccAux pat fuel (List.drop pat.length (c :: rest))
    else
      countOccAux pat fuel rest

/-- Python `s.count(pat)` for non-empty `pat`. -/
def pyCount (s pat : String) : Nat :=
  countOccAux pat.data s.data.length s.data

/-- Whether `pat` occurs as a contiguous sublist of `s`. -/
def isSubList (pat : List Char) : List Char → Bool
  | [] => decide (pat = [])
  | c :: rest => pat.isPrefixOf (c :: rest) || isSubList pat rest

/-- Python `pat in s` (substring containment). -/
def containsStr (s pat : String) : Bool :=
  isSubList pat.data s.data

/-- Split a character list on a separator character; Python `str.split(sep)`
semantics: splitting the empty string yields `[""]`. -/
def splitOnCharList (sep : Char) : List Char → List (List Char)
  | [] => [[]]
  | c :: rest =>
    match splitOnCharList sep rest with
    | [] => [[c]]
    | group :: groups =>
      if c = sep then [] :: group :: groups else (c :: group) :: groups

/-- Python `s.split('\n')`. -/
def pySplitLines (s : String) : List String :=
  (splitOnCharList '\n' s.data).map (fun l => ⟨l⟩)

/-- Python `s.lstrip()`. -/
def pyLstrip (s : String) : String :=
  ⟨s.data.dropWhile (fun c => pyIsSpace c)⟩

/-- Python `s.strip()`. -/
def pyStrip (s : String) : String :=
  ⟨((s.data.dropWhile (fun c => pyIsSpace c)).reverse.dropWhile
      (fun c => pyIsSpace c)).reverse⟩

/-- Python `s.lower()` (ASCII case folding). -/
def pyLower (s : String) : String :=
  ⟨s.data.map Char.toLower⟩

/-- Python `s.startswith(pre)`. -/
def pyStartsWith (s pre : String) : Bool :=
  pre.data.isPrefixOf s.data

/-- The matches of `re.findall(r'\b\d+\b', ·)`: maximal digit runs whose
neighbouring characters (when present) are not word characters.  `prev` is the
character immediately before the current scan position; `fuel` bounds
recursion and the wrapper passes the string length.  A run followed by a word
character matches no `\b` on its right and is skipped whole. -/
def findNumbersAux : Nat → Option Char → List Char → List (List Char)
  | 0, _, _ => []
  | _ + 1, _, [] => []
  | fuel + 1, prev, c :: rest =>
    if c.isDigit && (match prev with | none => true | some p => ! isWordChar p) then
      let run := (c :: rest).takeWhile Char.isDigit
      match (c :: rest).dropWhile Char.isDigit with
      | [] => [run]
      | d :: tail =>
        if isWordChar d then findNumbersAux fuel (some d) (d :: tail)
        else run :: findNumbersAux fuel (some d) (d :: tail)
    else
      findNumbersAux fuel (some c) rest

/-- Python `re.findall(r'\b\d+\b', code)`. -/
def pyFindNumbers (code : String) : List String :=
  (findNumbersAux code.data.length none code.data).map (fun l => ⟨l⟩)

/-! ### Data model (backend/models) -/

/-- `CodeMetrics` (models/response.py); the float `readability_score` is
modelled by a rational. -/
structure CodeMetrics where
  lines_of_code : Nat
  cyclomatic_complexity : Nat
  readability_score : ℚ
  estimated_execution_time : Option String
  memory_complexity : Option String
  deriving Repr, DecidableEq

/-- An entry of a syntax `issues` list (dicts built in code_analyzer.py). -/
structure Issue where
  issue_type : String
  message : String
  line : Option Nat
  column : Option Nat
  deriving Repr, DecidableEq

/-- The `{type, start, end, children}` dictionary `_node_to_dict` reduces a
tree-sitter node to; positions are (line, column) pairs. -/
inductive Ast where
  | node (ty : String) (startPos endPos : Nat × Nat) (children : List Ast)
  deriving Repr

/-- `AnalysisRequest` (models/request.py): the language field carries the
enum's `.value` string; boundary constraints are stated in theorems. -/
structure AnalysisRequest where
  code : String
  language : String
  check_syntax : Bool
  check_complexity : Bool
  suggest_improvements : Bool
  format_code : Bool
  deriving Repr

/-! ### Code analyzer service (backend/services/code_analyzer.py) -/

/-- `_count_lines_of_code`: lines that are non-empty after strip and do not
start with a comment indicator for the language. -/
def comment_indicators (language : String) : List String :=
  if language = "python" then ["#"]
  else if language = "javascript" then ["//", "/*", "*/"]
  else if language = "typescript" then ["//", "/*", "*/"]
  else if language = "java" then ["//", "/*", "*/"]
  else if language = "csharp" then ["//", "/*", "*/"]
  else if language = "go" then ["//", "/*", "*/"]
  else if language = "rust" then ["//", "/*", "*/"]
  else if language = "cpp" then ["//", "/*", "*/"]
  else if language = "ruby" then ["#"]
  else if language = "swift" then ["//", "/*", "*/"]
  else ["//", "#"]

/-- `_count_lines_of_code` over the already-split line list. -/
def count_lines_of_code (lines : List String) (language : String) : Nat :=
  (lines.filter (fun line =>
    let stripped := pyStrip line
    stripped ≠ "" ∧ ¬ (comment_indicators language).any
      (fun ind => pyStartsWith stripped ind))).length

/-- The decision-keyword list of `_calculate_cyclomatic_complexity`. -/
def decision_keywords : List String :=
  ["if", "elif", "else", "for", "while", "except",
   "case", "when", "catch", "switch", "&&", "||",
   "?", "try", "rescue", "unless"]

/-- The two padded-substring counts one keyword contributes:
`code.count(" kw ") + code.count("\nkw ")`. -/
def keywordContribution (code kw : String) : Nat :=
  pyCount code (" " ++ kw ++ " ") + pyCount code ("\n" ++ kw ++ " ")

/-- `_calculate_cyclomatic_complexity`: base 1 plus the padded occurrence
count of each decision keyword (the `language` argument is unused, as in the
source). -/
def calculate_cyclomatic_complexity (code : String) (_language : String) : Nat :=
  decision_keywords.foldl (fun complexity kw => complexity + keywordContribution code kw) 1

/-- `_calculate_readability`: float arithmetic modelled over ℚ
(0.5 = 1/2, 0.2 = 1/5). -/
def calculate_readability (lines : List String) : ℚ :=
  if lines = [] then 100
  else
    let total_length : ℚ := ((lines.map String.length).sum : Nat)
    let avg_length : ℚ := total_length / (lines.length : ℚ)
    let score : ℚ := 100
    let score := if avg_length > 80 then score - min 30 ((avg_length - 80) * (1 / 2)) else score
    let score :=
      if lines.length < 3 then score - 10
      else if lines.length > 50 then score - min 20 (((lines.length : ℚ) - 50) * (1 / 5))
      else score
    let indent_issues :=
      (lines.filter (fun line =>
        line ≠ "" ∧ line.front ≠ ' ' ∧ line.front ≠ '\t' ∧ containsStr line ":")).length
    let score := score - min 20 ((indent_issues : ℚ) * 2)
    max 0 (min 100 score)

/-- The indentation levels collected in the two-loop branch of
`_estimate_time_complexity`: for each line containing a loop keyword,
`len(line) - len(line.lstrip())`. -/
def loopIndentLevels (code : String) : List Nat :=
  ((pySplitLines code).filter
    (fun line => containsStr line "for" || containsStr line "while")).map
    (fun line => line.length - (pyLstrip line).length)

/-- The lowered-code loop keyword count of `_estimate_time_complexity`. -/
def loopCount (code : String) : Nat :=
  pyCount (pyLower code) "for" + pyCount (pyLower code) "while"

/-- `_estimate_time_complexity`. -/
def estimate_time_complexity (code : String) : String :=
  let code_lower := pyLower code
  let loop_count := pyCount code_lower "for" + pyCount code_lower "while"
  if loop_count ≥ 3 then "O(n³) or higher"
  else if loop_count = 2 then
    match loopIndentLevels code with
    | a :: b :: _ => if b > a then "O(n²)" else "O(n)"
    | _ => "O(n)"
  else if loop_count = 1 then "O(n)"
  else if containsStr code_lower "recursi" || containsStr code_lower "return self." then
    "O(log n) to O(n) - recursive"
  else "O(1)"

/-- `_estimate_memory_complexity`. -/
def estimate_memory_complexity (code : String) : String :=
  let memory_indicators :=
    ["[]", "list(", "array", "new int[", "new Array",
     "malloc", "vector", "HashMap", "Dictionary",
     "Set(", "Map("]
  if memory_indicators.any (fun ind => containsStr code ind) then
    if containsStr code "resize" || containsStr code "append" || containsStr code "push" then
      "O(n)"
    else "O(1) to O(n)"
  else "O(1)"

/-- `_calculate_metrics`. -/
def calculate_metrics (code : String) (language : String) : CodeMetrics :=
  let lines := pySplitLines code
  { lines_of_code := count_lines_of_code lines language
    cyclomatic_complexity := calculate_cyclomatic_complexity code language
    readability_score := calculate_readability lines
    estimated_execution_time := some (estimate_time_complexity code)
    memory_complexity := some (estimate_memory_complexity code) }

/-- The suggestion strings of `_generate_suggestions`, in emission order. -/
def sugg_docstrings : String := "Add docstrings to functions for better documentation"

/-- Type-hint suggestion string. -/
def sugg_type_hints : String := "Consider adding type hints for better code clarity"

/-- Error-handling suggestion string. -/
def sugg_error_handling : String := "Consider adding error handling for robustness"

/-- Complexity-refactoring suggestion string. -/
def sugg_refactor : String := "Consider refactoring to reduce complexity"

/-- Long-line suggestion string. -/
def sugg_long_lines : String := "Some lines exceed 100 characters - consider breaking them up"

/-- Named-constants (magic numbers) suggestion string. -/
def sugg_named_constants : String := "Consider using named constants instead of magic numbers"

/-- The error-handling keyword list of `_generate_suggestions`. -/
def error_keywords : List String := ["try", "except", "catch", "throw", "rescue"]

/-- `_generate_suggestions`: each condition appends its string, in source
order. -/
def generate_suggestions (code language : String) (metrics : Option CodeMetrics) :
    List String :=
  (if language = "python" ∧ ¬ containsStr code "\"\"\"" ∧ containsStr code "def "
   then [sugg_docstrings] else [])
  ++ (if language = "python" ∧ ¬ containsStr code "->" ∧ containsStr code "def "
      then [sugg_type_hints] else [])
  ++ (if ¬ error_keywords.any (fun kw => containsStr code kw)
      then [sugg_error_handling] else [])
  ++ (if match metrics with
        | some m => decide (m.cyclomatic_complexity > 10)
        | none => false
      then [sugg_refactor] else [])
  ++ (if (pySplitLines code).any (fun line => line.length > 100)
      then [sugg_long_lines] else [])
  ++ (if (pyFindNumbers code).length > 5
      then [sugg_named_constants] else [])

/-- `_format_code`, parameterised by the external `black.format_str` and
`autopep8.fix_code` (an `Except.error` is the library call raising).  The
inner `try` around black routes its failure to autopep8; a failure of
autopep8 propagates to the outer handler, which returns the input. -/
def format_code (black autopep8 : String → Except String String)
    (code language : String) : String :=
  let body : Except String String :=
    if language = "python" then
      match black code with
      | Except.ok formatted => Except.ok formatted
      | Except.error _ => autopep8 code
    else
      Except.ok code
  match body with
  | Except.ok formatted => formatted
  | Except.error _ => code

/-- Result dictionary of the syntax checker _check_syntax. -/
structure SyntaxResult where
  valid : Bool
  issues : List Issue
  ast : Option Ast

/-- External behaviour the analyzer service depends on: whether the
tree-sitter import succeeded, which languages obtained a parser handle in
`_init_parsers`, the outcome of `parser.parse` plus the tree walks
(`_find_syntax_errors`, `_node_to_dict`), Python `compile()` for the
fallback (`some (msg, lineno)` is a SyntaxError), and the two formatters. -/
structure AnalyzerEnv where
  tsAvailable : Bool
  parsers : List String
  parseResult : String → String → Except String (List Issue × Ast)
  pyCompile : String → Option (String × Option Nat)
  black : String → Except String String
  autopep8 : String → Except String String

/-- The syntax checker _check_syntax.  The result dict starts `{"valid": True, "issues": []}`;
the missing-parser branch appends one issue and returns without touching
`valid`. -/
def check_syntax (env : AnalyzerEnv) (code language : String) : SyntaxResult :=
  if env.tsAvailable = false then
    if language = "python" then
      match env.pyCompile code with
      | none => { valid := true, issues := [], ast := none }
      | some (msg, lineno) =>
        { valid := false
          issues := [{ issue_type := "error"
                       message := "Syntax error: " ++ msg
                       line := lineno
                       column := none }]
          ast := none }
    else
      { valid := true, issues := [], ast := none }
  else if language ∉ env.parsers then
    { valid := true
      issues := [{ issue_type := "error"
                   message := "Parser not available for " ++ language
                   line := none
                   column := none }]
      ast := none }
  else
    match env.parseResult language code with
    | Except.error msg =>
      { valid := false
        issues := [{ issue_type := "error"
                     message := "Parse error: " ++ msg
                     line := none
                     column := none }]
        ast := none }
    | Except.ok (errors, ast) =>
      { valid := errors.isEmpty
        issues := errors
        ast := some ast }

/-- The result dictionary `analyze_code` builds and returns. -/
structure AnalyzeResult where
  valid : Bool
  issues : List Issue
  suggestions : List String
  metrics : Option CodeMetrics
  ast_structure : Option Ast
  formatted_code : Option String

/-- `CodeAnalyzerService.analyze_code`: the result starts with
`valid = False` and empty collections, then each requested check fills its
fields. -/
def analyze_code (env : AnalyzerEnv) (request : AnalysisRequest) : AnalyzeResult :=
  let result : AnalyzeResult :=
    { valid := false, issues := [], suggestions := [],
      metrics := none, ast_structure := none, formatted_code := none }
  let result :=
    if AnalysisRequest.check_syntax request then
      let syntax_result := check_syntax env request.code request.language
      { result with
        valid := syntax_result.valid
        issues := result.issues ++ syntax_result.issues
        ast_structure := syntax_result.ast }
    else result
  let result :=
    if request.check_complexity then
      { result with metrics := some (calculate_metrics request.code request.language) }
    else result
  let result :=
    if request.suggest_improvements then
      { result with
        suggestions := generate_suggestions request.code request.language result.metrics }
    else result
  let result :=
    if request.format_code then
      { result with
        formatted_code := some (format_code env.black env.autopep8 request.code request.language) }
    else result
  result

/-! ### Analyze endpoint (backend/api/endpoints/analyze.py) -/

/-- The fields of `AnalysisResponse` the `/analyze` handler fills (scores as
rationals). -/
structure AnalysisResponse where
  syntax_valid : Bool
  language : String
  complexity : Nat
  readability_score : ℚ
  performance_score : ℚ
  lines_of_code : Nat
  syntax_errors : List Issue
  suggestions : List String
  metrics : Option CodeMetrics
  formatted_code : Option String
  ast_structure : Option Ast

/-- The `/analyze` handler: runs the service and assembles the response,
defaulting complexity/readability/loc when no metrics were computed. -/
def analyze_endpoint (env : AnalyzerEnv) (request : AnalysisRequest) : AnalysisResponse :=
  let analysis_result := analyze_code env request
  let defaults : Nat × ℚ × Nat :=
    match analysis_result.metrics with
    | some m => (m.cyclomatic_complexity, m.readability_score, m.lines_of_code)
    | none => (1, 85, 0)
  let complexity := defaults.1
  let readability := defaults.2.1
  let lines_of_code := defaults.2.2
  let performance_score : ℚ := max 0 (min 100 (100 - (complexity : ℚ) * 5))
  { syntax_valid := analysis_result.valid
    language := request.language
    complexity := complexity
    readability_score := readability
    performance_score := performance_score
    lines_of_code := lines_of_code
    syntax_errors := analysis_result.issues
    suggestions := analysis_result.suggestions
    metrics := analysis_result.metrics
    formatted_code := analysis_result.formatted_code
    ast_structure := analysis_result.ast_structure }

/-! ### Generation request validation (backend/models/request.py) -/

/-- The `validate_prompt` validator of `GenerationRequest`: reject when the
stripped prompt is under 10 characters, else replace the prompt by its
stripped form. -/
def validate_prompt (v : String) : Except String String :=
  if (pyStrip v).length < 10 then
    Except.error "Prompt must be at least 10 characters long"
  else
    Except.ok (pyStrip v)

/-- Pydantic construction of the `prompt` field: the `Field` constraints
(`min_length=1`, `max_length=2000`) are checked on the raw value, then the
`validate_prompt` validator runs. -/
def mkPromptField (prompt : String) : Except String String :=
  if prompt.length < 1 then Except.error "ensure this value has at least 1 characters"
  else if prompt.length > 2000 then Except.error "ensure this value has at most 2000 characters"
  else validate_prompt prompt

/-! ### Generation endpoint (backend/api/endpoints/generate.py) -/

/-- Generation status enum (models/response.py). -/
inductive GenerationStatus where
  | pending
  | in_progress
  | completed
  | failed
  deriving Repr, DecidableEq

/-- Generated tests record (models/response.py `TestResult`); the float
coverage estimate is modelled by a rational. -/
structure TestResult where
  test_code : String
  framework : String
  coverage_estimate : ℚ
  test_count : Nat
  deriving Repr, DecidableEq

/-- Generated documentation record (models/response.py `Documentation`). -/
structure Documentation where
  inline_comments : String
  readme : Option String
  api_docs : Option String
  usage_examples : List String
  deriving Repr, DecidableEq

/-- `GenerationResponse` (models/response.py); `created_at` and
`processing_time` read the environment clock and are not modelled. -/
structure GenerationResponse where
  id : String
  status : GenerationStatus
  code : Option String
  language : String
  tests : Option TestResult
  documentation : Option Documentation
  metrics : Option CodeMetrics
  error : Option String
  deriving Repr, DecidableEq

/-- The fields of a validated `GenerationRequest` that the batch endpoint
reads: the target language's `.value` and the include flags. -/
structure GenerationRequest where
  programming_language : String
  include_tests : Bool
  include_docs : Bool
  deriving Repr, DecidableEq

/-- What the `try` body of `generate_code_async` produced before building the
response: the awaited code, optional tests/documentation, and metrics. -/
structure GenPayload where
  code : String
  tests : Option TestResult
  documentation : Option Documentation
  metrics : Option CodeMetrics
  deriving Repr, DecidableEq

/-- `generate_code_async`, parameterised by the generation id and by the
outcome of its `try` body (`Except.error msg` is the body raising an
exception whose `str` is `msg`): a success becomes a `completed` response
carrying the payload, any exception is caught and becomes a `failed`
response whose `error` is the exception's string. -/
def generate_code_async (gid : String) (request : GenerationRequest)
    (outcome : Except String GenPayload) : GenerationResponse :=
  match outcome with
  | Except.ok payload =>
    { id := gid
      status := GenerationStatus.completed
      code := some payload.code
      language := request.programming_language
      tests := payload.tests
      documentation := payload.documentation
      metrics := payload.metrics
      error := none }
  | Except.error msg =>
    { id := gid
      status := GenerationStatus.failed
      code := none
      language := request.programming_language
      tests := none
      documentation := none
      metrics := none
      error := some msg }

/-- The response-assembly loop of `generate_batch`: one
`generate_code_async` task per request, gathered with
`return_exceptions=True` and converted positionally.  Each list entry pairs
a request with its orchestration outcome; `generate_code_async` itself never
raises, so every slot is produced by it.  Generation ids come from UUIDs and
are parameterised by position. -/
def generate_batch (gids : Nat → String)
    (items : List (GenerationRequest × Except String GenPayload)) :
    List GenerationResponse :=
  items.enum.map (fun entry => generate_code_async (gids entry.1) entry.2.1 entry.2.2)

/-! ### Helper lemmas -/

/-- Folding `+ f x` over a list from a start value adds the mapped sum. -/
theorem foldl_add_eq_add_sum (f : String → Nat) (l : List String) (n : Nat) :
    l.foldl (fun acc x => acc + f x) n = n + (l.map f).sum := by
  induction l generalizing n with
  | nil => simp
  | cons x xs ih => simp [ih, Nat.add_assoc]

/-- `dropWhile` never lengthens a list. -/
theorem length_dropWhile_le (p : Char → Bool) (l : List Char) :
    (l.dropWhile p).length ≤ l.length := by
  induction l with
  | nil => simp [List.dropWhile]
  | cons c cs ih =>
    by_cases h : p c
    · simp only [List.dropWhile, h]
      exact Nat.le_succ_of_le ih
    · simp [List.dropWhile, h]

/-- Stripping never lengthens a string. -/
theorem pyStrip_length_le (s : String) : (pyStrip s).length ≤ s.length := by
  show (((s.data.dropWhile _).reverse.dropWhile _).reverse).length ≤ s.data.length
  rw [List.length_reverse]
  calc ((s.data.dropWhile _).reverse.dropWhile _).length
      ≤ (s.data.dropWhile (fun c => pyIsSpace c)).reverse.length :=
        length_dropWhile_le _ _
    _ = (s.data.dropWhile (fun c => pyIsSpace c)).length := List.length_reverse _
    _ ≤ s.data.length := length_dropWhile_le _ _

/-- Membership in a conditional singleton list. -/
theorem mem_ite_singleton (a x : String) (c : Prop) [Decidable c] :
    a ∈ (if c then [x] else []) ↔ c ∧ a = x := by
  by_cases h : c <;> simp [h]

/-! ### C3: cyclomatic complexity -/

/-- C3: for every source text the cyclomatic complexity equals 1 plus the sum
over the fixed decision-keyword set of the space/newline-padded substring
occurrence counts of each keyword; an input with zero padded occurrences gets
complexity 1, and the value is always at least 1. -/
theorem cyclomatic_complexity_spec (code language : String) :
    calculate_cyclomatic_complexity code language
        = 1 + (decision_keywords.map (fun kw => keywordContribution code kw)).sum
    ∧ ((∀ kw ∈ decision_keywords, keywordContribution code kw = 0) →
        calculate_cyclomatic_complexity code language = 1)
    ∧ 1 ≤ calculate_cyclomatic_complexity code language := by
  have hfold := foldl_add_eq_add_sum (fun kw => keywordContribution code kw) decision_keywords 1
  refine ⟨hfold, ?_, ?_⟩
  · intro hzero
    have : (decision_keywords.map (fun kw => keywordContribution code kw)).sum = 0 := by
      apply List.sum_eq_zero
      intro x hx
      rcases List.mem_map.mp hx with ⟨kw, hkw, rfl⟩
      exact hzero kw hkw
    rw [calculate_cyclomatic_complexity, hfold, this]
  · rw [calculate_cyclomatic_complexity, hfold]
    exact Nat.le_add_right 1 _

/-- C3 witness: `"x = 1"` contains no padded decision keyword, so its
complexity is 1 (and the bounds hold there). -/
theorem cyclomatic_complexity_spec_witness :
    calculate_cyclomatic_complexity "x = 1" "python" = 1 :=
  (cyclomatic_complexity_spec "x = 1" "python").2.1 (by decide)

/-! ### C6: readability bounds -/

/-- C6: the readability score lies within [0, 100] for every line list. -/
theorem readability_in_range (lines : List String) :
    0 ≤ calculate_readability lines ∧ calculate_readability lines ≤ 100 := by
  unfold calculate_readability
  by_cases h : lines = []
  · simp [h]
  · rw [if_neg h]
    exact ⟨le_max_left _ _, max_le (by norm_num) (min_le_left _ _)⟩

/-! ### C7: metrics of the empty string -/

/-- C7: analyzing the empty string yields 0 lines of code and cyclomatic
complexity 1. -/
theorem empty_string_metrics :
    (calculate_metrics "" "python").lines_of_code = 0
    ∧ (calculate_metrics "" "python").cyclomatic_complexity = 1 := by
  constructor <;> rfl

/-! ### C4: the magic-number suggestion

The source counts `re.findall(r'\b\d+\b', code)` matches with multiplicity
(`len(numbers) > 5`); the claim speaks of distinct literals. -/

/-- The claim's notion: the number of distinct numeric literals found by the
digit-run scan. -/
def distinctNumericLiterals (code : String) : Nat :=
  (pyFindNumbers code).dedup.length

/-- C4 counterexample: `"1 1 1 1 1 1"` has a single distinct numeric literal
(so the claim forbids the suggestion) yet the named-constants suggestion is
emitted, because the scan finds six matches. -/
theorem named_constants_counterexample :
    sugg_named_constants ∈ generate_suggestions "1 1 1 1 1 1" "python" none
    ∧ distinctNumericLiterals "1 1 1 1 1 1" = 1
    ∧ (pyFindNumbers "1 1 1 1 1 1").length = 6 := by
  refine ⟨?_, by decide, by decide⟩
  decide

/-- C4 (amended): the named-constants suggestion is emitted iff the digit-run
scan finds more than 5 numeric-literal matches, counted with multiplicity. -/
theorem named_constants_iff (code language : String) (metrics : Option CodeMetrics) :
    sugg_named_constants ∈ generate_suggestions code language metrics
      ↔ (pyFindNumbers code).length > 5 := by
  have h1 : sugg_named_constants ≠ sugg_docstrings := by decide
  have h2 : sugg_named_constants ≠ sugg_type_hints := by decide
  have h3 : sugg_named_constants ≠ sugg_error_handling := by decide
  have h4 : sugg_named_constants ≠ sugg_refactor := by decide
  have h5 : sugg_named_constants ≠ sugg_long_lines := by decide
  simp [generate_suggestions, List.mem_append, mem_ite_singleton, h1, h2, h3, h4, h5]

/-! ### C9: the time-complexity label -/

/-- C9: the time-complexity label follows the loop keyword count: at least 3
occurrences give "O(n³) or higher"; exactly 2 give "O(n²)" precisely when the
second loop-bearing line is indented more than the first, else "O(n)";
exactly 1 gives "O(n)"; 0 with a recursion marker gives the recursive label;
otherwise "O(1)". -/
theorem time_complexity_spec (code : String) :
    (3 ≤ loopCount code → estimate_time_complexity code = "O(n³) or higher")
    ∧ (loopCount code = 2 →
        (∀ a b rest, loopIndentLevels code = a :: b :: rest →
          estimate_time_complexity code = if b > a then "O(n²)" else "O(n)")
        ∧ (∀ a, loopIndentLevels code = [a] → estimate_time_complexity code = "O(n)")
        ∧ (loopIndentLevels code = [] → estimate_time_complexity code = "O(n)"))
    ∧ (loopCount code = 1 → estimate_time_complexity code = "O(n)")
    ∧ (loopCount code = 0 →
        ((containsStr (pyLower code) "recursi"
            || containsStr (pyLower code) "return self.") = true →
          estimate_time_complexity code = "O(log n) to O(n) - recursive")
        ∧ ((containsStr (pyLower code) "recursi"
            || containsStr (pyLower code) "return self.") = false →
          estimate_time_complexity code = "O(1)")) := by
  have hdef : estimate_time_complexity code =
      (if 3 ≤ loopCount code then "O(n³) or higher"
       else if loopCount code = 2 then
         match loopIndentLevels code with
         | a :: b :: _ => if b > a then "O(n²)" else "O(n)"
         | _ => "O(n)"
       else if loopCount code = 1 then "O(n)"
       else if containsStr (pyLower code) "recursi"
           || containsStr (pyLower code) "return self." then
         "O(log n) to O(n) - recursive"
       else "O(1)") := rfl
  refine ⟨?_, ?_, ?_, ?_⟩
  · intro h
    rw [hdef, if_pos h]
  · intro h2
    have hn3 : ¬ 3 ≤ loopCount code := by omega
    refine ⟨?_, ?_, ?_⟩
    · intro a b rest hlv
      rw [hdef, if_neg hn3, if_pos h2, hlv]
    · intro a hlv
      rw [hdef, if_neg hn3, if_pos h2, hlv]
    · intro hlv
      rw [hdef, if_neg hn3, if_pos h2, hlv]
  · intro h1
    have hn3 : ¬ 3 ≤ loopCount code := by omega
    have hn2 : ¬ loopCount code = 2 := by omega
    rw [hdef, if_neg hn3, if_neg hn2, if_pos h1]
  · intro h0
    have hn3 : ¬ 3 ≤ loopCount code := by omega
    have hn2 : ¬ loopCount code = 2 := by omega
    have hn1 : ¬ loopCount code = 1 := by omega
    constructor
    · intro hrec
      rw [hdef, if_neg hn3, if_neg hn2, if_neg hn1, if_pos hrec]
    · intro hrec
      rw [hdef, if_neg hn3, if_neg hn2, if_neg hn1, if_neg (by simp [hrec])]

/-- C9 witness: three loop keywords give the cubic label, one gives "O(n)",
and a loop-free recursive text gets the recursive label. -/
theorem time_complexity_spec_witness :
    estimate_time_complexity "for for for" = "O(n³) or higher"
    ∧ estimate_time_complexity "for x in y: pass" = "O(n)"
    ∧ estimate_time_complexity "recursion" = "O(log n) to O(n) - recursive" :=
  ⟨(time_complexity_spec "for for for").1 (by decide),
   (time_complexity_spec "for x in y: pass").2.2.1 (by decide),
   ((time_complexity_spec "recursion").2.2.2 (by decide)).1 (by decide)⟩

/-! ### C10: syntax_valid when check_syntax is off -/

/-- C10: with check_syntax = false the orchestrator's `valid` keeps its
initial `False` default, so the `/analyze` response reports
`syntax_valid = false` whatever the code. -/
theorem syntax_valid_default_false (env : AnalyzerEnv) (request : AnalysisRequest)
    (h : AnalysisRequest.check_syntax request = false) :
    (analyze_code env request).valid = false
    ∧ (analyze_endpoint env request).syntax_valid = false := by
  have hvalid : (analyze_code env request).valid = false := by
    unfold analyze_code
    simp only [h, Bool.false_eq_true, if_false]
    split
    · split
      · split <;> rfl
      · split <;> rfl
    · split
      · split <;> rfl
      · split <;> rfl
  exact ⟨hvalid, hvalid⟩

/-- C10 witness: a concrete request with all checks off reports
`syntax_valid = false` on syntactically fine code. -/
theorem syntax_valid_default_false_witness :
    (analyze_endpoint
      { tsAvailable := true, parsers := ["python"],
        parseResult := fun _ _ => Except.error "",
        pyCompile := fun _ => none,
        black := fun _ => Except.error "",
        autopep8 := fun _ => Except.error "" }
      { code := "x = 1", language := "python", check_syntax := false,
        check_complexity := true, suggest_improvements := true,
        format_code := false }).syntax_valid = false :=
  (syntax_valid_default_false _ _ rfl).2

/-! ### C5: the formatter never raises and falls back -/

/-- C5: whatever the black/autopep8 behaviour, `_format_code` is total and: a
non-python language returns its input unchanged; for python a black success
is returned, a black failure falls back to autopep8, and if both fail the
original input comes back. -/
theorem format_code_spec (black autopep8 : String → Except String String)
    (code language : String) :
    (language ≠ "python" → format_code black autopep8 code language = code)
    ∧ (∀ f, black code = Except.ok f →
        format_code black autopep8 code "python" = f)
    ∧ (∀ e g, black code = Except.error e → autopep8 code = Except.ok g →
        format_code black autopep8 code "python" = g)
    ∧ (∀ e e2, black code = Except.error e → autopep8 code = Except.error e2 →
        format_code black autopep8 code "python" = code) := by
  refine ⟨?_, ?_, ?_, ?_⟩
  · intro h
    simp [format_code, h]
  · intro f hf
    simp [format_code, hf]
  · intro e g he hg
    simp [format_code, he, hg]
  · intro e e2 he he2
    simp [format_code, he, he2]

/-- A black stub that always fails. -/
def blackAlwaysFails : String → Except String String :=
  fun _ => Except.error "black failed"

/-- An autopep8 stub that appends a newline. -/
def autopep8AppendsNewline : String → Except String String :=
  fun s => Except.ok (s ++ "\n")

/-- C5 witness: with a failing black and a succeeding autopep8, a non-python
input is untouched and a python input gets the autopep8 output. -/
theorem format_code_spec_witness :
    format_code blackAlwaysFails autopep8AppendsNewline "x=1" "ruby" = "x=1"
    ∧ format_code blackAlwaysFails autopep8AppendsNewline "x=1" "python" = "x=1\n" :=
  ⟨(format_code_spec blackAlwaysFails autopep8AppendsNewline "x=1" "ruby").1
      (by decide),
   (format_code_spec blackAlwaysFails autopep8AppendsNewline "x=1" "python").2.2.1
      "black failed" "x=1\n" rfl rfl⟩

/-! ### C8: prompt validation -/

/-- C8: a prompt whose stripped form is under 10 characters never constructs
a request; a constructed request carries the stripped prompt, of length at
least 10 and (when the raw prompt respects the 2000-character field bound) at
most 2000. -/
theorem prompt_validation_spec (prompt : String) :
    ((pyStrip prompt).length < 10 → ∀ q, mkPromptField prompt ≠ Except.ok q)
    ∧ (∀ q, mkPromptField prompt = Except.ok q →
        q = pyStrip prompt ∧ 10 ≤ q.length
        ∧ (prompt.length ≤ 2000 → q.length ≤ 2000)) := by
  constructor
  · intro hshort q hq
    unfold mkPromptField validate_prompt at hq
    split_ifs at hq
  · intro q hq
    unfold mkPromptField validate_prompt at hq
    split_ifs at hq with h1 h2 h3
    injection hq with hqe
    subst hqe
    exact ⟨rfl, by omega, fun hle => le_trans (pyStrip_length_le prompt) hle⟩

/-- C8 witness: `" hi "` (stripped length 2) is rejected; `"  hello world  "`
is accepted and carries the 11-character stripped prompt, within bounds. -/
theorem prompt_validation_spec_witness :
    (mkPromptField " hi " ≠ Except.ok " hi ")
    ∧ ("hello world" = pyStrip "  hello world  "
        ∧ 10 ≤ String.length "hello world"
        ∧ (String.length "  hello world  " ≤ 2000 →
            String.length "hello world" ≤ 2000)) :=
  ⟨(prompt_validation_spec " hi ").1 (by decide) " hi ",
   (prompt_validation_spec "  hello world  ").2 "hello world" rfl⟩

/-! ### C1: missing-parser syntax check

In parser-backed mode (`TREE_SITTER_AVAILABLE` true) with no handle loaded
for the language, _check_syntax appends the single "parser not available"
issue but returns the result dict with its initial `"valid": True`, whereas
the spec mandates `valid=false` there. -/

/-- A parser-backed environment in which no parser handle was loaded. -/
def noHandleEnv : AnalyzerEnv :=
  { tsAvailable := true
    parsers := []
    parseResult := fun _ _ => Except.error ""
    pyCompile := fun _ => none
    black := fun _ => Except.error ""
    autopep8 := fun _ => Except.error "" }

/-- C1: evaluated at a missing-parser language under parser-backed mode, the
syntax check yields exactly one "parser not available" issue but leaves
`valid = true`, contradicting the claimed `valid = false`. -/
theorem missing_parser_valid_stays_true :
    ( check_syntax noHandleEnv "x = 1" "ruby").valid = true
    ∧ ( check_syntax noHandleEnv "x = 1" "ruby").issues =
        [{ issue_type := "error"
           message := "Parser not available for ruby"
           line := none
           column := none }] := by
  constructor <;> rfl

/-! ### C2: batch generation with one failing slot

`generate_code_async` converts any exception of its body into a `failed`
response whose `error` is the exception's string; slots are positionally
independent.  The claim's "non-empty error string" fails when the raised
exception stringifies to `""`. -/

/-- A sample validated generation request. -/
def sampleGenRequest : GenerationRequest :=
  { programming_language := "python", include_tests := true, include_docs := true }

/-- A sample successful orchestration payload. -/
def sampleGenPayload : GenPayload :=
  { code := "print(1)", tests := none, documentation := none, metrics := none }

/-- C2 counterexample: a batch of 3 where the middle orchestration raises an
exception whose string is empty.  The result has length 3 with statuses
completed/failed/completed in position, but the failing slot's error is the
empty string, refuting the claimed non-empty error. -/
theorem batch_empty_error_counterexample :
    (generate_batch (fun _ => "gen")
        [(sampleGenRequest, Except.ok sampleGenPayload),
         (sampleGenRequest, Except.error ""),
         (sampleGenRequest, Except.ok sampleGenPayload)]).map
        GenerationResponse.status
      = [GenerationStatus.completed, GenerationStatus.failed, GenerationStatus.completed]
    ∧ (generate_batch (fun _ => "gen")
        [(sampleGenRequest, Except.ok sampleGenPayload),
         (sampleGenRequest, Except.error ""),
         (sampleGenRequest, Except.ok sampleGenPayload)]).map
        GenerationResponse.error
      = [none, some "", none] := by
  constructor <;> rfl

/-- C2 (amended): batch results are positional and independent — the result
list has the batch's length and slot i is exactly `generate_code_async` of
item i — and a slot whose orchestration raises becomes status `failed`
with `error` equal to the exception's string (hence non-empty exactly when
that string is), while a successful slot becomes `completed` with no
error. -/
theorem batch_positional_spec (gids : Nat → String)
    (items : List (GenerationRequest × Except String GenPayload)) :
    (generate_batch gids items).length = items.length
    ∧ (∀ i : Nat, (generate_batch gids items)[i]? =
        (items[i]?).map (fun rq => generate_code_async (gids i) rq.1 rq.2))
    ∧ (∀ gid req msg,
        (generate_code_async gid req (Except.error msg)).status = GenerationStatus.failed
        ∧ (generate_code_async gid req (Except.error msg)).error = some msg)
    ∧ (∀ gid req payload,
        (generate_code_async gid req (Except.ok payload)).status = GenerationStatus.completed
        ∧ (generate_code_async gid req (Except.ok payload)).error = none) := by
  refine ⟨?_, ?_, ?_, ?_⟩
  · simp [generate_batch]
  · intro i
    simp only [generate_batch, List.getElem?_map, List.getElem?_enum]
    cases items[i]? <;> rfl
  · intro gid req msg
    exact ⟨rfl, rfl⟩
  · intro gid req payload
    exact ⟨rfl, rfl⟩
